import Mathlib

/-!
Verification of the media-synchronization controller embedded in
`src/docs/.vitepress/theme/components/ArtPlayer.vue`.

The component pairs a primary video element (owned by the Artplayer host
library) with a secondary `<audio>` element that it creates, inserts in the
document, and keeps aligned with the primary through DOM media events.
We embed the controller shallowly: media elements are records over ℚ/Bool
(volume and currentTime never undergo arithmetic in the source, only
assignment and comparison, so ℚ models them exactly; a NaN duration is
`Option.none`), and each listener body is a Lean function on an explicit
session state.  The host library accessors `art.volume` / `art.muted` /
`art.video` delegate to the primary video element (spec section 6 treats the
host player as the supplier of the primary element and its volume/mute/paused
accessors), so reads of `art.volume` are embedded as reads of `video.volume`.

`createAudioElement` (source lines 123-183) and the wrapped `art.destroy`
(lines 228-236) are multi-statement DOM mutations; we embed them as lists of
primitive steps together with a step interpreter, so that claims about
intermediate moments ("the old element is paused before the new one is
created", "at most one element is in the document at any time") are about
every prefix of the executed step list, not just its endpoints.
-/

namespace ArtPlayerSync

/-- An HTML media element as the controller observes and mutates it.
`duration = none` models a NaN duration (metadata not yet loaded). -/
structure MediaElem where
  src : String
  volume : ℚ
  muted : Bool
  paused : Bool
  currentTime : ℚ
  duration : Option ℚ
  deriving DecidableEq, Repr

/-- One entry of the `audioTracks` prop (source lines 16-20); the optional
JS `default` field is `false` when absent. -/
structure AudioTrack where
  isDefault : Bool
  html : String
  url : String
  deriving DecidableEq, Repr

/-- One entry of the `qualities` prop (source lines 9-14). -/
structure Quality where
  isDefault : Bool
  html : String
  url : String
  audioUrl : Option String
  deriving DecidableEq, Repr

/-- The synchronization session: the primary video element, the mutable
`audioElement` binding (source line 119), the `isInitializing` guard flag
(line 120), the configured track list and `currentAudioTrack` (line 118),
plus instrumentation observables: how many audio elements are attached to
the document, how many listener sets were registered on the video element
(one set = the four `addEventListener` calls of lines 145-172), how many
times `audioElement.play()` was requested, how many play rejections were
caught and logged, and how many elements were ever removed from the document
without having been paused first (orphaned playing audio). -/
structure SessionState where
  video : MediaElem
  audioElement : Option MediaElem
  docAudioCount : Nat
  listenerSets : Nat
  isInitializing : Bool
  playRequests : Nat
  errorsLogged : Nat
  unpausedRemovals : Nat
  tracks : List AudioTrack
  currentAudioTrack : AudioTrack
  deriving DecidableEq, Repr

/-- A freshly created `<audio>` element after `src` is assigned
(source lines 129-132): default volume 1, unmuted, paused, at time 0,
duration still NaN because metadata loads asynchronously. -/
def freshAudio (url : String) : MediaElem :=
  { src := url, volume := 1, muted := false, paused := true
    currentTime := 0, duration := none }

/-- `sync` (source lines 138-142): copy the primary position to the
secondary only when the secondary reports a valid (non-NaN) duration. -/
def sync (s : SessionState) : SessionState :=
  match s.audioElement with
  | some a =>
      if a.duration.isSome then
        { s with audioElement := some { a with currentTime := s.video.currentTime } }
      else s
  | none => s

/-- `audioElement.play().catch(e => console.error(...))`: a playback-start
request whose asynchronous outcome is the parameter `ok`.  On resolution the
element leaves the paused state; on rejection the error is caught and logged
and the element is left as it was.  `audioElement?.play()` requests nothing
when no element exists. -/
def requestAudioPlay (s : SessionState) (ok : Bool) : SessionState :=
  match s.audioElement with
  | some a =>
      if ok then
        { s with playRequests := s.playRequests + 1
                 audioElement := some { a with paused := false } }
      else
        { s with playRequests := s.playRequests + 1
                 errorsLogged := s.errorsLogged + 1 }
  | none => s

/-- The `play` listener (source lines 145-148): `sync()` then
`audioElement?.play().catch(...)`. -/
def onPlayListener (s : SessionState) (ok : Bool) : SessionState :=
  requestAudioPlay (sync s) ok

/-- The `pause` listener (source lines 150-152): `audioElement?.pause()`. -/
def onPauseListener (s : SessionState) : SessionState :=
  { s with audioElement := s.audioElement.map (fun a => { a with paused := true }) }

/-- The `seeked` listener (source lines 154-156): `sync()`. -/
def onSeekedListener (s : SessionState) : SessionState :=
  sync s

/-- The `volumechange` listener (source lines 158-172): ignored while
`isInitializing`; otherwise copies `art.volume` / `art.muted` (reads of the
primary element) onto the secondary, then requests secondary playback when
the primary is playing, unmuted, and the secondary is paused. -/
def onVolumechangeListener (s : SessionState) (ok : Bool) : SessionState :=
  if s.isInitializing then s
  else
    match s.audioElement with
    | some a =>
        let a1 : MediaElem := { a with volume := s.video.volume, muted := s.video.muted }
        let s1 : SessionState := { s with audioElement := some a1 }
        if !s.video.paused && !s.video.muted && a1.paused then
          requestAudioPlay s1 ok
        else s1
    | none => s

/-- Primitive DOM/state mutations performed by `createAudioElement`
(source lines 123-183) and the wrapped `art.destroy` (lines 228-236),
in source order.  Interpreting these one at a time exposes every
intermediate moment of the two multi-statement operations. -/
inductive Step where
  | pauseOldAudio
  | removeOldAudio
  | clearAudioRef
  | newAudio (url : String)
  | appendAudio
  | addListenerSet
  | initAudioVolume
  | syncStep
  | requestPlay
  deriving DecidableEq, Repr

/-- Interpreter for one `Step`.  `removeOldAudio` counts an element that
leaves the document while still playing in `unpausedRemovals`;
`newAudio` rebinds the mutable `audioElement` variable to a fresh element;
`initAudioVolume` is `audioElement.volume = art.volume; audioElement.muted
= art.muted` (lines 175-176); `requestPlay` is the fire-and-forget
`audioElement.play().catch(...)` of line 181, whose asynchronous outcome is
not part of the synchronous trace. -/
def applyStep (s : SessionState) : Step → SessionState
  | .pauseOldAudio =>
      { s with audioElement := s.audioElement.map (fun a => { a with paused := true }) }
  | .removeOldAudio =>
      let orphan : Nat :=
        match s.audioElement with
        | some a => if a.paused then 0 else 1
        | none => 0
      { s with docAudioCount := s.docAudioCount - 1
               unpausedRemovals := s.unpausedRemovals + orphan }
  | .clearAudioRef => { s with audioElement := none }
  | .newAudio url => { s with audioElement := some (freshAudio url) }
  | .appendAudio => { s with docAudioCount := s.docAudioCount + 1 }
  | .addListenerSet => { s with listenerSets := s.listenerSets + 1 }
  | .initAudioVolume =>
      let upd : MediaElem → MediaElem :=
        fun a => { a with volume := s.video.volume, muted := s.video.muted }
      { s with audioElement := s.audioElement.map upd }
  | .syncStep => sync s
  | .requestPlay =>
      match s.audioElement with
      | some _ => { s with playRequests := s.playRequests + 1 }
      | none => s

/-- Run a list of steps left to right. -/
def runSteps (s : SessionState) (steps : List Step) : SessionState :=
  steps.foldl applyStep s

/-- The step list executed by one call of `createAudioElement(audioUrl)`
(source lines 123-183): tear down the previous element if one exists
(pause, then remove), create and append the new element, register the four
listeners on the video element, initialize the new element's volume/mute
from the player, and, when the video is not paused, `sync()` and request
playback. -/
def createAudioElementSteps (s : SessionState) (url : String) : List Step :=
  (if s.audioElement.isSome then [Step.pauseOldAudio, Step.removeOldAudio] else [])
    ++ [Step.newAudio url, Step.appendAudio, Step.addListenerSet, Step.initAudioVolume]
    ++ (if s.video.paused then [] else [Step.syncStep, Step.requestPlay])

/-- `createAudioElement` as a state transformer: its step list, executed. -/
def createAudioElement (s : SessionState) (url : String) : SessionState :=
  runSteps s (createAudioElementSteps s url)

/-- The step list of the wrapped `art.destroy` (source lines 229-236): when
an element exists, pause it, remove it, and null the reference; otherwise
nothing.  (Delegation to the host library's own `originalDestroy` is outside
the session state.) -/
def destroySteps (s : SessionState) : List Step :=
  if s.audioElement.isSome then [Step.pauseOldAudio, Step.removeOldAudio, Step.clearAudioRef]
  else []

/-- The wrapped `art.destroy` as a state transformer.  `onBeforeUnmount`
(lines 240-244) calls exactly this function. -/
def destroyWrapped (s : SessionState) : SessionState :=
  runSteps s (destroySteps s)

/-- The settings-panel `onSelect` callback (source lines 215-223): look up
the audio track whose url equals the selected value; on a hit update
`currentAudioTrack`, rebuild the audio element, and return the item's label;
on a miss return the current track's label and touch nothing. -/
def onSelect (s : SessionState) (value : String) (itemHtml : String) :
    SessionState × String :=
  match s.tracks.find? (fun t => t.url == value) with
  | some t => (createAudioElement { s with currentAudioTrack := t } t.url, itemHtml)
  | none => (s, s.currentAudioTrack.html)

/-- A DOM media event dispatched on the primary video element, routed to
the controller's listeners.  The Bool on `play` / `volumechange` is the
asynchronous outcome of the `audioElement.play()` request those handlers
may issue (true = resolved, false = rejected by platform policy). -/
inductive Evt where
  | play (ok : Bool)
  | pauseEv
  | seeked
  | volumechange (ok : Bool)
  deriving DecidableEq, Repr

/-- Dispatch one event to one registered listener set. -/
def handleEvt (s : SessionState) : Evt → SessionState
  | .play ok => onPlayListener s ok
  | .pauseEv => onPauseListener s
  | .seeked => onSeekedListener s
  | .volumechange ok => onVolumechangeListener s ok

/-- The operations a session undergoes after it exists: building a (new)
secondary element (initial attach via the `ready` handler, or a track
switch via `onSelect`), the wrapped destroy (host player destroyed, or
component unmounted — both exit paths run the same wrapped function), and
any media-event dispatch. -/
inductive Op where
  | create (url : String)
  | destroy
  | evt (e : Evt)
  deriving DecidableEq, Repr

/-- End state of one operation. -/
def runOp (s : SessionState) : Op → SessionState
  | .create url => createAudioElement s url
  | .destroy => destroyWrapped s
  | .evt e => handleEvt s e

/-- End state of a sequence of operations. -/
def runOps (s : SessionState) (ops : List Op) : SessionState :=
  ops.foldl runOp s

/-- Every state passed through while one operation executes, including the
starting state: for the step-based operations, the whole prefix scan of
their step list; for an event dispatch, before and after the handler. -/
def opMicro (s : SessionState) : Op → List SessionState
  | .create url => List.scanl applyStep s (createAudioElementSteps s url)
  | .destroy => List.scanl applyStep s (destroySteps s)
  | .evt e => [s, handleEvt s e]

/-- Every micro-state passed through while a sequence of operations runs. -/
def allMicro (s : SessionState) : List Op → List SessionState
  | [] => [s]
  | op :: rest => opMicro s op ++ allMicro (runOp s op) rest

/-- The session's structural invariant at operation boundaries: the
document holds the secondary element iff the `audioElement` binding is
live, and no element was ever removed from the document while playing. -/
def Inv (s : SessionState) : Prop :=
  s.docAudioCount = (if s.audioElement.isSome then 1 else 0) ∧
  s.unpausedRemovals = 0

instance (s : SessionState) : Decidable (Inv s) := by
  unfold Inv; infer_instance

/-! ### Prop parsing and player-url selection (source lines 42-67, 104-112)

`JSON.parse` belongs to the host platform, so it enters the embedding as an
oracle argument `parse`; the `try/catch` of lines 45-49 becomes a match on
its `Except` result, with the catch branch logging and leaving the variable
undefined. -/

/-- A prop that may arrive as a structured list or as a serialized string
(`Quality[] | string`), or be absent. -/
def PropInput (α : Type) : Type := Option (List α ⊕ String)

/-- Lines 42-53 (and identically 56-67): resolve a prop to a variant list.
Returns the resolved list (none when the prop is absent or the parse threw)
and whether a parse error was caught and logged. -/
def resolveVariants {α : Type} (input : PropInput α)
    (parse : String → Except String (List α)) : Option (List α) × Bool :=
  match input with
  | none => (none, false)
  | some (Sum.inl arr) => (some arr, false)
  | some (Sum.inr s) =>
      match parse s with
      | Except.ok arr => (some arr, false)
      | Except.error _ => (none, true)

/-- Lines 104-112: when a non-empty quality list resolved, the initial url
is the default variant's (first flagged, else first element); otherwise the
plain `props.url` single-url fallback (none models an absent/empty prop). -/
def selectPlayerUrl (qualitiesArray : Option (List Quality))
    (propsUrl : Option String) : Option String :=
  match qualitiesArray with
  | some (q :: qs) => some (((q :: qs).find? (fun x => x.isDefault)).getD q).url
  | _ => propsUrl

/-! ### The `ready` handler and the initialization guard window
(source lines 186-203)

HTML media elements queue `volumechange` as an asynchronous task and only
when the volume or muted value actually changed; the 50 ms timeout of line
193 fires long after those queued tasks, so the dispatch order is: the
synchronous handler body, then the tasks it queued (inside the guard
window), then the timeout callback, then the tasks the callback queued. -/

/-- Assign a value to the primary element's volume; returns the new state
and whether a `volumechange` task was queued (only on an actual change). -/
def setVideoVolume (s : SessionState) (v : ℚ) : SessionState × Bool :=
  if s.video.volume = v then (s, false)
  else ({ s with video := { s.video with volume := v } }, true)

/-- Assign the primary element's muted flag; queues `volumechange` only on
an actual change. -/
def setVideoMuted (s : SessionState) (m : Bool) : SessionState × Bool :=
  if s.video.muted = m then (s, false)
  else ({ s with video := { s.video with muted := m } }, true)

/-- Dispatch one queued `volumechange` task: the event fires once on the
video element and runs every registered listener set. -/
def dispatchVolumechange (s : SessionState) (ok : Bool) : SessionState :=
  (fun st => onVolumechangeListener st ok)^[s.listenerSets] s

/-- Dispatch a queued `volumechange` task if one was queued. -/
def fireIf (s : SessionState) (queued : Bool) (ok : Bool) : SessionState :=
  if queued then dispatchVolumechange s ok else s

/-- One framework-internal volume reset landing inside the guard window:
the write to the primary's volume plus the dispatch, still inside the
window, of the task it queued. -/
def windowReset (ok : Bool) (s : SessionState) (r : ℚ) : SessionState :=
  let p := setVideoVolume s r
  fireIf p.1 p.2 ok

/-- The whole initialization sequence around the guard window, with an
arbitrary list of in-window internal volume resets interleaved:
the `ready` handler body (guard on, primary volume zeroed, initial element
created — lines 186-203), dispatch of the task the zeroing queued, the
in-window resets, then the 50 ms callback (force `art.volume = 1.0`,
`art.muted = false`, guard off — lines 193-197) and the dispatch of the
tasks it queued. -/
def readyScenario (s0 : SessionState) (url : String) (resets : List ℚ)
    (ok : Bool) : SessionState :=
  let s1 : SessionState := { s0 with isInitializing := true }
  let p2 := setVideoVolume s1 0
  let s3 := if url ≠ "" then createAudioElement p2.1 url else p2.1
  let s4 := fireIf s3 p2.2 ok
  let s5 := resets.foldl (windowReset ok) s4
  let p6 := setVideoVolume s5 1
  let p7 := setVideoMuted p6.1 false
  let s8 : SessionState := { p7.1 with isInitializing := false }
  let s9 := fireIf s8 p6.2 ok
  fireIf s9 p7.2 ok

/-- Recognizer for the playback-request step. -/
def isRequestPlay : Step → Bool
  | .requestPlay => true
  | _ => false

/-! ### Concrete demonstration states (used by witnesses and counterexamples) -/

/-- A primary video element in its configured initial state: volume 1
(player option `volume: 1.0`), unmuted (`muted: false`), paused
(`autoplay: false`). -/
def demoVideo : MediaElem :=
  { src := "v.mp4", volume := 1, muted := false, paused := true
    currentTime := 0, duration := some 100 }

/-- A demonstration audio track. -/
def demoTrack : AudioTrack := { isDefault := true, html := "Chinese", url := "a.mp3" }

/-- A second demonstration audio track. -/
def demoTrack2 : AudioTrack := { isDefault := false, html := "English", url := "b.mp3" }

/-- A session right after the player is built, before the `ready` handler
ran: no secondary element yet. -/
def demoState : SessionState :=
  { video := demoVideo, audioElement := none, docAudioCount := 0
    listenerSets := 0, isInitializing := false, playRequests := 0
    errorsLogged := 0, unpausedRemovals := 0
    tracks := [demoTrack, demoTrack2], currentAudioTrack := demoTrack }

/-- A loaded secondary audio element playing at position 30. -/
def demoAudio : MediaElem :=
  { src := "a.mp3", volume := 1, muted := false
    paused := false, currentTime := 30, duration := some 100 }

/-- A session with a live secondary element whose metadata has loaded,
while the primary is playing at position 30. -/
def demoAttached : SessionState :=
  { video := { demoVideo with paused := false, currentTime := 30 }
    audioElement := some demoAudio
    docAudioCount := 1, listenerSets := 1, isInitializing := false
    playRequests := 1, errorsLogged := 0, unpausedRemovals := 0
    tracks := [demoTrack, demoTrack2], currentAudioTrack := demoTrack }

/-- A session with a live secondary element whose metadata has not loaded
(duration still NaN), primary paused at position 42. -/
def demoUnloaded : SessionState :=
  { video := { demoVideo with currentTime := 42 }
    audioElement := some (freshAudio "a.mp3")
    docAudioCount := 1, listenerSets := 1, isInitializing := false
    playRequests := 0, errorsLogged := 0, unpausedRemovals := 0
    tracks := [demoTrack, demoTrack2], currentAudioTrack := demoTrack }

/-- A paused, still-muted secondary element (as after the primary was muted
and paused the session). -/
def demoResumeAudio : MediaElem :=
  { src := "a.mp3", volume := 1, muted := true
    paused := true, currentTime := 10, duration := some 100 }

/-- A session where the primary plays unmuted (mute just cleared) while the
secondary is still paused. -/
def demoResume : SessionState :=
  { video := { demoVideo with paused := false, currentTime := 10 }
    audioElement := some demoResumeAudio
    docAudioCount := 1, listenerSets := 1, isInitializing := false
    playRequests := 1, errorsLogged := 0, unpausedRemovals := 0
    tracks := [demoTrack, demoTrack2], currentAudioTrack := demoTrack }

/-! ### Claims about the individual listeners -/

/-- Claim C6: on a `seeked` event with the primary at position t, the secondary's
position becomes t when its duration is valid, and the write is skipped
silently (state unchanged, no error) when the duration is still NaN. -/
theorem seeked_aligns_iff_valid_duration (s : SessionState) (a : MediaElem)
    (h : s.audioElement = some a) :
    (a.duration.isSome = true →
      (onSeekedListener s).audioElement = some { a with currentTime := s.video.currentTime }) ∧
    (a.duration = none →
      onSeekedListener s = s) := by
  constructor <;> intro hd <;> simp [onSeekedListener, sync, h, hd]

/-- Witness for C6 at concrete inputs: a loaded secondary is aligned to the
primary's position 30; an unloaded one (NaN duration) is left untouched. -/
theorem seeked_aligns_iff_valid_duration_witness :
    (demoAttached.audioElement = some demoAudio ∧
     demoUnloaded.audioElement = some (freshAudio "a.mp3")) ∧
    ((onSeekedListener demoAttached).audioElement =
      some { demoAudio with currentTime := demoAttached.video.currentTime }) ∧
    (onSeekedListener demoUnloaded = demoUnloaded) := by
  refine ⟨⟨by decide, by decide⟩, ?_, ?_⟩
  · exact (seeked_aligns_iff_valid_duration demoAttached demoAudio (by decide)).1 (by decide)
  · exact (seeked_aligns_iff_valid_duration demoUnloaded (freshAudio "a.mp3") (by decide)).2 (by decide)

/-- Claim C7: on a `play` event the listener runs `sync()` before requesting
secondary playback, so when the secondary's duration is valid its position
ends at the primary's; the playback request is issued exactly once (no retry
loop); a rejected request is caught and logged, leaves the secondary's
paused state untouched, and does not abort the session, while a resolved
request leaves the secondary playing. -/
theorem play_aligns_then_requests_once (s : SessionState) (a : MediaElem)
    (h : s.audioElement = some a) :
    (∀ ok : Bool, (onPlayListener s ok).playRequests = s.playRequests + 1) ∧
    (∀ ok : Bool, a.duration.isSome = true →
      (onPlayListener s ok).audioElement.map MediaElem.currentTime = some s.video.currentTime) ∧
    ((onPlayListener s false).errorsLogged = s.errorsLogged + 1) ∧
    ((onPlayListener s false).audioElement.map MediaElem.paused = some a.paused) ∧
    ((onPlayListener s true).audioElement.map MediaElem.paused = some false) := by
  refine ⟨?_, ?_, ?_, ?_, ?_⟩ <;>
    first
    | (intro ok hd
       cases ok <;> simp [onPlayListener, sync, requestAudioPlay, h, hd])
    | (intro ok
       rcases hd : a.duration with _ | d <;>
         cases ok <;> simp [onPlayListener, sync, requestAudioPlay, h, hd])
    | (rcases hd : a.duration with _ | d <;>
         simp [onPlayListener, sync, requestAudioPlay, h, hd])

/-- Witness for C7 at a concrete session: one request per event, position
aligned, rejection logged with the secondary left as it was. -/
theorem play_aligns_then_requests_once_witness :
    demoUnloaded.audioElement = some (freshAudio "a.mp3") ∧
    ((onPlayListener demoUnloaded false).playRequests = demoUnloaded.playRequests + 1 ∧
     (onPlayListener demoUnloaded false).errorsLogged = demoUnloaded.errorsLogged + 1 ∧
     (onPlayListener demoUnloaded false).audioElement.map MediaElem.paused =
       some (freshAudio "a.mp3").paused ∧
     (onPlayListener demoUnloaded true).audioElement.map MediaElem.paused = some false) := by
  have hthm := play_aligns_then_requests_once demoUnloaded (freshAudio "a.mp3") (by decide)
  exact ⟨by decide, hthm.1 false, hthm.2.2.1, hthm.2.2.2.1, hthm.2.2.2.2⟩

/-- Claim C8: a `volumechange` event arriving outside the guard window copies the
primary's volume and mute flags onto the secondary; and when the primary is
unmuted (in particular right after a mute was cleared) while the primary is
playing and the secondary is paused, secondary playback is requested (and
resumes when the request resolves). -/
theorem volumechange_copies_and_resumes (s : SessionState) (a : MediaElem) (ok : Bool)
    (hg : s.isInitializing = false) (h : s.audioElement = some a) :
    ((onVolumechangeListener s ok).audioElement.map MediaElem.volume = some s.video.volume) ∧
    ((onVolumechangeListener s ok).audioElement.map MediaElem.muted = some s.video.muted) ∧
    (s.video.paused = false → s.video.muted = false → a.paused = true →
      (onVolumechangeListener s ok).playRequests = s.playRequests + 1 ∧
      (ok = true →
        (onVolumechangeListener s ok).audioElement.map MediaElem.paused = some false)) := by
  refine ⟨?_, ?_, ?_⟩
  · cases hc : (!s.video.paused && !s.video.muted && a.paused) <;> cases ok <;>
      simp [onVolumechangeListener, requestAudioPlay, hg, h, hc]
  · cases hc : (!s.video.paused && !s.video.muted && a.paused) <;> cases ok <;>
      simp [onVolumechangeListener, requestAudioPlay, hg, h, hc]
  · intro hp hm hpa
    have hc : (!s.video.paused && !s.video.muted && a.paused) = true := by
      simp [hp, hm, hpa]
    cases ok <;> simp [onVolumechangeListener, requestAudioPlay, hg, h, hc]

/-- Witness for C8: primary playing unmuted at volume 1, secondary paused
and muted from an earlier state; the handler copies volume/mute and
requests playback which resumes the secondary. -/
theorem volumechange_copies_and_resumes_witness :
    (demoResume.isInitializing = false ∧ demoResume.audioElement = some demoResumeAudio ∧
     demoResume.video.paused = false ∧ demoResume.video.muted = false ∧
     demoResumeAudio.paused = true) ∧
    ((onVolumechangeListener demoResume true).audioElement.map MediaElem.volume =
       some demoResume.video.volume ∧
     (onVolumechangeListener demoResume true).audioElement.map MediaElem.muted =
       some demoResume.video.muted ∧
     (onVolumechangeListener demoResume true).playRequests = demoResume.playRequests + 1 ∧
     (onVolumechangeListener demoResume true).audioElement.map MediaElem.paused = some false) := by
  have hthm := volumechange_copies_and_resumes demoResume demoResumeAudio true rfl (by decide)
  have hres := hthm.2.2 (by decide) (by decide) (by decide)
  exact ⟨⟨rfl, by decide, by decide, by decide, by decide⟩,
         hthm.1, hthm.2.1, hres.1, hres.2 rfl⟩

/-- Claim C10: selecting a value that matches no configured audio track's url
leaves the session entirely unchanged — no track update, no teardown, no new
element — and returns the currently selected track's display label. -/
theorem onSelect_unknown_value_noop (s : SessionState) (value itemHtml : String)
    (h : ∀ t ∈ s.tracks, t.url ≠ value) :
    onSelect s value itemHtml = (s, s.currentAudioTrack.html) := by
  have hfind : s.tracks.find? (fun t => t.url == value) = none := by
    rw [List.find?_eq_none]
    intro t ht
    simpa using h t ht
  simp [onSelect, hfind]

/-- Witness for C10: selecting an unconfigured url in the demo session
changes nothing and echoes the current track's label. -/
theorem onSelect_unknown_value_noop_witness :
    (∀ t ∈ demoAttached.tracks, t.url ≠ "zz.mp3") ∧
    onSelect demoAttached "zz.mp3" "ZZ" = (demoAttached, demoAttached.currentAudioTrack.html) :=
  ⟨by decide, onSelect_unknown_value_noop demoAttached "zz.mp3" "ZZ" (by decide)⟩

/-- Claim C5: the wrapped destroy is idempotent; under the session invariant any
positive number of calls leaves zero secondary elements in the document;
with no live session it is a pure no-op (so a double teardown is not an
error), and with no live session the document already holds no secondary
element. -/
theorem detach_idempotent_noop (s : SessionState) (hInv : Inv s) :
    (∀ n : Nat, (destroyWrapped^[n + 1] s).docAudioCount = 0) ∧
    destroyWrapped (destroyWrapped s) = destroyWrapped s ∧
    (s.audioElement = none → destroyWrapped s = s) ∧
    (s.audioElement = none → s.docAudioCount = 0) := by
  obtain ⟨hcount, -⟩ := hInv
  have hnone : ∀ t : SessionState, t.audioElement = none → destroyWrapped t = t := by
    intro t ht
    simp [destroyWrapped, destroySteps, runSteps, ht]
  have hzero : (destroyWrapped s).docAudioCount = 0 ∧ (destroyWrapped s).audioElement = none := by
    cases ha : s.audioElement with
    | none =>
        rw [hnone s ha]
        rw [ha] at hcount
        simpa [ha] using hcount
    | some a =>
        rw [ha] at hcount
        simp [destroyWrapped, destroySteps, runSteps, applyStep, ha, hcount]
  have hfix : destroyWrapped (destroyWrapped s) = destroyWrapped s :=
    hnone (destroyWrapped s) hzero.2
  refine ⟨?_, hfix, hnone s, ?_⟩
  · intro n
    rw [Function.iterate_succ_apply]
    rw [Function.iterate_fixed hfix n]
    exact hzero.1
  · intro ha
    rw [ha] at hcount
    simpa using hcount

/-- Witness for C5: in the demo session with a live element, one, two and
three teardowns all leave zero elements, a second teardown changes nothing,
and on the fresh session (no element) teardown is the identity. -/
theorem detach_idempotent_noop_witness :
    (Inv demoAttached ∧ Inv demoState) ∧
    ((destroyWrapped^[1] demoAttached).docAudioCount = 0 ∧
     (destroyWrapped^[3] demoAttached).docAudioCount = 0 ∧
     destroyWrapped (destroyWrapped demoAttached) = destroyWrapped demoAttached ∧
     destroyWrapped demoState = demoState ∧
     demoState.docAudioCount = 0) := by
  have h1 := detach_idempotent_noop demoAttached (by decide)
  have h2 := detach_idempotent_noop demoState (by decide)
  exact ⟨⟨by decide, by decide⟩,
         h1.1 0, h1.1 2, h1.2.1, h2.2.2.1 (by decide), h2.2.2.2 (by decide)⟩

/-- A parse oracle that always fails, standing for `JSON.parse` throwing on
malformed input. -/
def alwaysFailParse : String → Except String (List Quality) :=
  fun _ => Except.error "unexpected token"

/-- Claim C9: when the serialized variant list fails to parse, the failure is
caught and logged, the variant list resolves to none (no variants supplied),
and the configuration falls back to the plain single-url path; the whole
resolution is a total function (nothing propagates to the caller). -/
theorem malformed_variants_fallback (s : String)
    (parse : String → Except String (List Quality)) (e : String)
    (hp : parse s = Except.error e) (u : String) :
    resolveVariants (some (Sum.inr s)) parse = (none, true) ∧
    selectPlayerUrl (resolveVariants (some (Sum.inr s)) parse).1 (some u) = some u := by
  simp [resolveVariants, selectPlayerUrl, hp]

/-- Witness for C9 with a concrete malformed string and failing oracle:
the parse error is logged, no variants are configured, and the player url
is the plain prop url. -/
theorem malformed_variants_fallback_witness :
    alwaysFailParse "not json" = Except.error "unexpected token" ∧
    (resolveVariants (some (Sum.inr "not json")) alwaysFailParse = (none, true) ∧
     selectPlayerUrl (resolveVariants (some (Sum.inr "not json")) alwaysFailParse).1
       (some "v.mp4") = some "v.mp4") :=
  ⟨rfl, malformed_variants_fallback "not json" alwaysFailParse "unexpected token" rfl "v.mp4"⟩

/-- Claim C3, refuted by the code: every `createAudioElement` call registers a
fresh set of the four listeners on the primary video element and no call
path ever removes one, so listener sets accumulate across switches: after
the initial attach plus one track switch the primary carries two sets
(duplicate handlers), where the claim requires the count to stay at one. -/
theorem listener_sets_accumulate_on_switch :
    (∀ (s : SessionState) (url : String),
      (createAudioElement s url).listenerSets = s.listenerSets + 1) ∧
    (createAudioElement demoState "a.mp3").listenerSets = 1 ∧
    (createAudioElement (createAudioElement demoState "a.mp3") "b.mp3").listenerSets = 2 := by
  refine ⟨?_, by decide, by decide⟩
  intro s url
  cases hs : s.audioElement <;> cases hp : s.video.paused <;>
    simp [createAudioElement, createAudioElementSteps, runSteps, applyStep, sync,
          freshAudio, hs, hp]

/-- Claim C1: switching tracks while a session exists splits the executed step
list into a teardown prefix — containing the pause and the removal of the
old element and no element creation and no playback request — followed by
the setup of the new element pointed at the new url; so the old element is
paused and removed before the new one exists and before any playback
request.  The primary element is untouched (playback position and play
state preserved), the session ends bound to an element with the new url,
and playback of the new element is requested exactly once when the primary
is playing and not at all when it is paused. -/
theorem switchTrack_teardown_then_single_play (s : SessionState) (url : String)
    (hs : s.audioElement.isSome = true) :
    (∃ pre post, createAudioElementSteps s url = pre ++ post ∧
       Step.pauseOldAudio ∈ pre ∧ Step.removeOldAudio ∈ pre ∧
       (∀ x ∈ pre, (∀ u, x ≠ Step.newAudio u) ∧ x ≠ Step.requestPlay) ∧
       Step.newAudio url ∈ post) ∧
    ((createAudioElementSteps s url).countP isRequestPlay =
      if s.video.paused then 0 else 1) ∧
    ((createAudioElement s url).video = s.video) ∧
    ((createAudioElement s url).audioElement.map MediaElem.src = some url) ∧
    ((createAudioElement s url).playRequests =
      s.playRequests + if s.video.paused then 0 else 1) := by
  rcases ha : s.audioElement with _ | a
  · rw [ha] at hs; simp at hs
  refine ⟨?_, ?_, ?_, ?_, ?_⟩
  · refine ⟨[Step.pauseOldAudio, Step.removeOldAudio],
      [Step.newAudio url, Step.appendAudio, Step.addListenerSet, Step.initAudioVolume]
        ++ (if s.video.paused then [] else [Step.syncStep, Step.requestPlay]), ?_, ?_, ?_, ?_, ?_⟩
    · simp [createAudioElementSteps, ha]
    · simp
    · simp
    · intro x hx
      simp only [List.mem_cons, List.not_mem_nil, or_false] at hx
      rcases hx with rfl | rfl <;> exact ⟨by intro u; simp, by simp⟩
    · simp
  · cases hp : s.video.paused <;>
      simp [createAudioElementSteps, isRequestPlay, ha, hp, List.countP_append, List.countP_cons]
  · cases hp : s.video.paused <;>
      simp [createAudioElement, createAudioElementSteps, runSteps, applyStep, sync,
            freshAudio, ha, hp]
  · cases hp : s.video.paused <;>
      simp [createAudioElement, createAudioElementSteps, runSteps, applyStep, sync,
            freshAudio, ha, hp]
  · cases hp : s.video.paused <;>
      simp [createAudioElement, createAudioElementSteps, runSteps, applyStep, sync,
            freshAudio, ha, hp]

/-- Witness for C1: a switch away from the playing demo session keeps the
primary untouched, rebinds the session to the new url, and requests the new
element's playback exactly once, with teardown strictly before creation and
before the request. -/
theorem switchTrack_teardown_then_single_play_witness :
    demoAttached.audioElement.isSome = true ∧
    ((∃ pre post, createAudioElementSteps demoAttached "b.mp3" = pre ++ post ∧
        Step.pauseOldAudio ∈ pre ∧ Step.removeOldAudio ∈ pre ∧
        (∀ x ∈ pre, (∀ u, x ≠ Step.newAudio u) ∧ x ≠ Step.requestPlay) ∧
        Step.newAudio "b.mp3" ∈ post) ∧
     ((createAudioElementSteps demoAttached "b.mp3").countP isRequestPlay =
       if demoAttached.video.paused then 0 else 1) ∧
     ((createAudioElement demoAttached "b.mp3").video = demoAttached.video) ∧
     ((createAudioElement demoAttached "b.mp3").audioElement.map MediaElem.src =
       some "b.mp3") ∧
     ((createAudioElement demoAttached "b.mp3").playRequests =
       demoAttached.playRequests + if demoAttached.video.paused then 0 else 1)) :=
  ⟨by decide, switchTrack_teardown_then_single_play demoAttached "b.mp3" (by decide)⟩

/-! ### Frame lemmas: event handlers never add or remove document elements -/

lemma sync_preserves (s : SessionState) :
    (sync s).docAudioCount = s.docAudioCount ∧
    (sync s).unpausedRemovals = s.unpausedRemovals ∧
    (sync s).audioElement.isSome = s.audioElement.isSome := by
  rcases ha : s.audioElement with _ | a
  · simp [sync, ha]
  · simp only [sync, ha]
    split <;> simp [ha]

lemma requestAudioPlay_preserves (s : SessionState) (ok : Bool) :
    (requestAudioPlay s ok).docAudioCount = s.docAudioCount ∧
    (requestAudioPlay s ok).unpausedRemovals = s.unpausedRemovals ∧
    (requestAudioPlay s ok).audioElement.isSome = s.audioElement.isSome := by
  rcases ha : s.audioElement with _ | a <;> cases ok <;> simp [requestAudioPlay, ha]

lemma handleEvt_preserves (s : SessionState) (e : Evt) :
    (handleEvt s e).docAudioCount = s.docAudioCount ∧
    (handleEvt s e).unpausedRemovals = s.unpausedRemovals ∧
    (handleEvt s e).audioElement.isSome = s.audioElement.isSome := by
  cases e with
  | play ok =>
      have h1 := sync_preserves s
      have h2 := requestAudioPlay_preserves (sync s) ok
      simp only [handleEvt, onPlayListener]
      exact ⟨h2.1.trans h1.1, h2.2.1.trans h1.2.1, h2.2.2.trans h1.2.2⟩
  | pauseEv => simp [handleEvt, onPauseListener]
  | seeked => exact sync_preserves s
  | volumechange ok =>
      rcases hg : s.isInitializing with _ | _
      · rcases ha : s.audioElement with _ | a
        · simp [handleEvt, onVolumechangeListener, hg, ha]
        · simp only [handleEvt, onVolumechangeListener, hg, ha, Bool.false_eq_true,
                     if_false]
          split
          · rcases hok : ok <;> simp [requestAudioPlay, ha]
          · simp [ha]
      · simp [handleEvt, onVolumechangeListener, hg]

lemma handleEvt_inv (s : SessionState) (e : Evt) (hInv : Inv s) :
    Inv (handleEvt s e) := by
  obtain ⟨h1, h2⟩ := hInv
  obtain ⟨f1, f2, f3⟩ := handleEvt_preserves s e
  exact ⟨by rw [f1, f3, h1], by rw [f2, h2]⟩

/-- Effect of one `createAudioElement` call on the structural invariant and
on every intermediate moment of its step list. -/
lemma create_effect (s : SessionState) (url : String) (hInv : Inv s) :
    Inv (createAudioElement s url) ∧
    ∀ m ∈ List.scanl applyStep s (createAudioElementSteps s url),
      m.docAudioCount ≤ 1 ∧ m.unpausedRemovals = 0 := by
  obtain ⟨h1, h2⟩ := hInv
  rcases ha : s.audioElement with _ | a <;> rcases hp : s.video.paused with _ | _ <;>
    rw [ha] at h1 <;> simp at h1 <;>
    constructor <;>
    simp [createAudioElement, createAudioElementSteps, runSteps, applyStep, sync,
          freshAudio, Inv, List.scanl, ha, hp, h1, h2]

/-- Effect of the wrapped destroy: the invariant is preserved, the document
ends empty, the binding ends cleared, and every intermediate moment keeps at
most one element and removes nothing unpaused. -/
lemma destroy_effect (s : SessionState) (hInv : Inv s) :
    Inv (destroyWrapped s) ∧
    (destroyWrapped s).docAudioCount = 0 ∧
    (destroyWrapped s).audioElement = none ∧
    ∀ m ∈ List.scanl applyStep s (destroySteps s),
      m.docAudioCount ≤ 1 ∧ m.unpausedRemovals = 0 := by
  obtain ⟨h1, h2⟩ := hInv
  rcases ha : s.audioElement with _ | a <;> rw [ha] at h1 <;> simp at h1 <;>
    refine ⟨?_, ?_, ?_, ?_⟩ <;>
    simp [destroyWrapped, destroySteps, runSteps, applyStep, Inv, List.scanl,
          ha, h1, h2]

/-- Claim C4: starting from any state satisfying the session invariant, any
sequence of attaches, track switches, media events, and teardowns keeps at
most one secondary audio element in the document at every micro-step, never
removes a playing element without pausing it first (no orphaned playing
audio), preserves the invariant, and on either exit path — the wrapped
destroy runs both when the host player is destroyed and when the component
unmounts — ends with zero elements in the document and the binding cleared. -/
theorem at_most_one_attached_and_released (s0 : SessionState) (ops : List Op)
    (hInv : Inv s0) :
    (∀ m ∈ allMicro s0 ops, m.docAudioCount ≤ 1 ∧ m.unpausedRemovals = 0) ∧
    Inv (runOps s0 ops) ∧
    (runOps s0 (ops ++ [Op.destroy])).docAudioCount = 0 ∧
    (runOps s0 (ops ++ [Op.destroy])).audioElement = none := by
  induction ops generalizing s0 with
  | nil =>
      obtain ⟨h1, h2⟩ := hInv
      have hd := destroy_effect s0 ⟨h1, h2⟩
      refine ⟨?_, ⟨h1, h2⟩, ?_, ?_⟩
      · intro m hm
        simp [allMicro] at hm
        subst hm
        constructor
        · rw [h1]; split <;> omega
        · exact h2
      · simpa [runOps, runOp] using hd.2.1
      · simpa [runOps, runOp] using hd.2.2.1
  | cons op rest ih =>
      have hnext : Inv (runOp s0 op) := by
        cases op with
        | create url => exact (create_effect s0 url hInv).1
        | destroy => exact (destroy_effect s0 hInv).1
        | evt e => exact handleEvt_inv s0 e hInv
      have hrest := ih (runOp s0 op) hnext
      refine ⟨?_, ?_, ?_, ?_⟩
      · intro m hm
        simp only [allMicro, List.mem_append] at hm
        rcases hm with hm | hm
        · cases op with
          | create url => exact (create_effect s0 url hInv).2 m hm
          | destroy => exact (destroy_effect s0 hInv).2.2.2 m hm
          | evt e =>
              obtain ⟨h1, h2⟩ := hInv
              obtain ⟨f1, f2, f3⟩ := handleEvt_preserves s0 e
              simp only [opMicro, List.mem_cons, List.not_mem_nil, or_false] at hm
              rcases hm with rfl | rfl
              · exact ⟨by rw [h1]; split <;> omega, h2⟩
              · refine ⟨?_, by rw [f2, h2]⟩
                rw [f1, h1]; split <;> omega
        · exact hrest.1 m hm
      · simpa [runOps, List.foldl_cons] using hrest.2.1
      · simpa [runOps, List.foldl_cons] using hrest.2.2.1
      · simpa [runOps, List.foldl_cons] using hrest.2.2.2

/-- Witness for C4 on a concrete operation sequence: attach, play, switch
track, a volume change, teardown, and a second teardown. -/
theorem at_most_one_attached_and_released_witness :
    Inv demoState ∧
    ((∀ m ∈ allMicro demoState
        [Op.create "a.mp3", Op.evt (Evt.play true), Op.create "b.mp3",
         Op.evt (Evt.volumechange true), Op.destroy, Op.destroy],
        m.docAudioCount ≤ 1 ∧ m.unpausedRemovals = 0) ∧
     Inv (runOps demoState
        [Op.create "a.mp3", Op.evt (Evt.play true), Op.create "b.mp3",
         Op.evt (Evt.volumechange true), Op.destroy, Op.destroy]) ∧
     (runOps demoState
        ([Op.create "a.mp3", Op.evt (Evt.play true), Op.create "b.mp3",
          Op.evt (Evt.volumechange true), Op.destroy, Op.destroy] ++ [Op.destroy])).docAudioCount = 0 ∧
     (runOps demoState
        ([Op.create "a.mp3", Op.evt (Evt.play true), Op.create "b.mp3",
          Op.evt (Evt.volumechange true), Op.destroy, Op.destroy] ++ [Op.destroy])).audioElement = none) :=
  ⟨by decide,
   at_most_one_attached_and_released demoState
     [Op.create "a.mp3", Op.evt (Evt.play true), Op.create "b.mp3",
      Op.evt (Evt.volumechange true), Op.destroy, Op.destroy] (by decide)⟩

/-! ### Guard-window lemmas (claim C2) -/

lemma vc_guard_id (s : SessionState) (ok : Bool) (h : s.isInitializing = true) :
    onVolumechangeListener s ok = s := by
  simp [onVolumechangeListener, h]

lemma dispatch_guard_id (s : SessionState) (ok : Bool) (h : s.isInitializing = true) :
    dispatchVolumechange s ok = s := by
  unfold dispatchVolumechange
  generalize s.listenerSets = n
  induction n with
  | zero => rfl
  | succ k ih =>
      simp only [Function.iterate_succ_apply, vc_guard_id s ok h]
      exact ih

lemma fireIf_guard_id (s : SessionState) (q ok : Bool) (h : s.isInitializing = true) :
    fireIf s q ok = s := by
  cases q <;> simp [fireIf, dispatch_guard_id s ok h]

lemma setVideoVolume_fst (s : SessionState) (v : ℚ) :
    (setVideoVolume s v).1 = { s with video := { s.video with volume := v } } := by
  by_cases h : s.video.volume = v
  · rw [← h]
    simp [setVideoVolume]
  · simp [setVideoVolume, h]

lemma setVideoVolume_snd_of_ne (s : SessionState) (v : ℚ) (h : s.video.volume ≠ v) :
    (setVideoVolume s v).2 = true := by
  simp [setVideoVolume, h]

lemma setVideoMuted_fst (s : SessionState) (m : Bool) :
    (setVideoMuted s m).1 = { s with video := { s.video with muted := m } } := by
  by_cases h : s.video.muted = m
  · rw [← h]
    simp [setVideoMuted]
  · simp [setVideoMuted, h]

lemma setVideoMuted_snd_of_eq (s : SessionState) (m : Bool) (h : s.video.muted = m) :
    (setVideoMuted s m).2 = false := by
  simp [setVideoMuted, h]

lemma windowReset_eq (ok : Bool) (s : SessionState) (r : ℚ) (h : s.isInitializing = true) :
    windowReset ok s r = { s with video := { s.video with volume := r } } := by
  by_cases hv : s.video.volume = r
  · rw [← hv]
    simp [windowReset, setVideoVolume, fireIf]
  · have hfst := setVideoVolume_fst s r
    simp only [windowReset, setVideoVolume, hv, if_false]
    exact fireIf_guard_id _ _ _ h

lemma fold_resets (ok : Bool) (resets : List ℚ) :
    ∀ s : SessionState, s.isInitializing = true →
      resets.foldl (windowReset ok) s =
        { s with video := { s.video with
            volume := resets.foldl (fun _ r => r) s.video.volume } } := by
  induction resets with
  | nil => intro s _; rfl
  | cons r rs ih =>
      intro s h
      rw [List.foldl_cons, windowReset_eq ok s r h,
          ih ({ s with video := { s.video with volume := r } }) h]
      simp only [List.foldl_cons]

lemma foldl_pick_ne (l : List ℚ) : ∀ v0 : ℚ, v0 ≠ 1 → (∀ r ∈ l, r ≠ 1) →
    l.foldl (fun _ r => r) v0 ≠ 1 := by
  induction l with
  | nil => intro v0 h0 _; simpa using h0
  | cons r rs ih =>
      intro v0 _ hl
      rw [List.foldl_cons]
      exact ih r (hl r (by simp)) (fun x hx => hl x (by simp [hx]))

lemma createAudioElement_frame (s : SessionState) (url : String) :
    (createAudioElement s url).video = s.video ∧
    (createAudioElement s url).isInitializing = s.isInitializing ∧
    (createAudioElement s url).listenerSets = s.listenerSets + 1 ∧
    (createAudioElement s url).audioElement.isSome = true := by
  rcases ha : s.audioElement with _ | a <;> rcases hp : s.video.paused with _ | _ <;>
    simp [createAudioElement, createAudioElementSteps, runSteps, applyStep, sync,
          freshAudio, ha, hp]

lemma vc_after_copy (s : SessionState) (ok : Bool) (hg : s.isInitializing = false)
    (hs : s.audioElement.isSome = true) :
    (onVolumechangeListener s ok).audioElement.map MediaElem.volume = some s.video.volume ∧
    (onVolumechangeListener s ok).audioElement.map MediaElem.muted = some s.video.muted ∧
    (onVolumechangeListener s ok).video = s.video ∧
    (onVolumechangeListener s ok).isInitializing = false ∧
    (onVolumechangeListener s ok).audioElement.isSome = true := by
  rcases ha : s.audioElement with _ | a
  · rw [ha] at hs; simp at hs
  · simp only [onVolumechangeListener, hg, Bool.false_eq_true, if_false, ha]
    split
    · cases ok <;> simp [requestAudioPlay, hg]
    · simp [hg]

lemma iterate_vc (ok : Bool) : ∀ (n : Nat) (s : SessionState),
    s.isInitializing = false → s.audioElement.isSome = true →
    (((fun st => onVolumechangeListener st ok)^[n + 1] s).audioElement.map MediaElem.volume
        = some s.video.volume) ∧
    (((fun st => onVolumechangeListener st ok)^[n + 1] s).audioElement.map MediaElem.muted
        = some s.video.muted) ∧
    ((fun st => onVolumechangeListener st ok)^[n + 1] s).video = s.video ∧
    ((fun st => onVolumechangeListener st ok)^[n + 1] s).isInitializing = false := by
  intro n
  induction n with
  | zero =>
      intro s hg hs
      have hc := vc_after_copy s ok hg hs
      rw [zero_add, Function.iterate_one]
      exact ⟨hc.1, hc.2.1, hc.2.2.1, hc.2.2.2.1⟩
  | succ n ih =>
      intro s hg hs
      have hc := vc_after_copy s ok hg hs
      rw [Function.iterate_succ_apply]
      have hnext := ih (onVolumechangeListener s ok) hc.2.2.2.1 hc.2.2.2.2
      refine ⟨?_, ?_, ?_, hnext.2.2.2⟩
      · rw [hnext.1, hc.2.2.1]
      · rw [hnext.2.1, hc.2.2.1]
      · rw [hnext.2.2.1, hc.2.2.1]

/-- Closed form of the initialization sequence when the configured track
url is nonempty, the primary starts unmuted, and no in-window reset lands
exactly on the full-volume target: everything reduces to one post-window
`volumechange` dispatch on the state whose primary carries the force-applied
volume 1 / unmuted and whose guard is off. -/
lemma readyScenario_unfold (s0 : SessionState) (url : String) (resets : List ℚ)
    (ok : Bool) (hu : url ≠ "") (hm : s0.video.muted = false)
    (hr : ∀ r ∈ resets, r ≠ 1) :
    readyScenario s0 url resets ok =
      dispatchVolumechange
        { createAudioElement
            { s0 with isInitializing := true
                      video := { s0.video with volume := 0 } } url with
          video := { s0.video with volume := 1, muted := false }
          isInitializing := false } ok := by
  have hfr := createAudioElement_frame
    ({ s0 with isInitializing := true, video := { s0.video with volume := 0 } }) url
  have hg3 : (createAudioElement
      { s0 with isInitializing := true, video := { s0.video with volume := 0 } } url
      ).isInitializing = true := hfr.2.1
  have hL : (resets.foldl (fun _ r => r) (0 : ℚ)) ≠ 1 :=
    foldl_pick_ne resets 0 (by norm_num) hr
  simp only [readyScenario, setVideoVolume_fst, setVideoMuted_fst]
  rw [if_pos hu]
  rw [fireIf_guard_id _ _ _ hg3]
  rw [fold_resets ok resets _ hg3]
  rw [hfr.1]
  rw [setVideoVolume_snd_of_ne _ _ hL]
  simp [setVideoMuted, hm, fireIf]

lemma dispatch_final (s : SessionState) (ok : Bool) (hg : s.isInitializing = false)
    (hsome : s.audioElement.isSome = true) (hn : 0 < s.listenerSets) :
    (dispatchVolumechange s ok).video = s.video ∧
    (dispatchVolumechange s ok).isInitializing = false ∧
    (dispatchVolumechange s ok).audioElement.map MediaElem.volume = some s.video.volume ∧
    (dispatchVolumechange s ok).audioElement.map MediaElem.muted = some s.video.muted := by
  obtain ⟨n, hn2⟩ : ∃ n, s.listenerSets = n + 1 := ⟨s.listenerSets - 1, by omega⟩
  unfold dispatchVolumechange
  rw [hn2]
  have hit := iterate_vc ok n s hg hsome
  exact ⟨hit.2.2.1, hit.2.2.2, hit.1, hit.2.1⟩

/-- Claim C2, amended: volume-change notifications during the guard window are
ignored (not mirrored onto the secondary); once the window elapses the
controller has force-applied full volume and unmuted to the primary; and —
provided no internal in-window volume reset left the primary's volume
already at exactly the full-volume target, so that the force-apply is an
actual change and fires a volume-change notification — the secondary's
volume and mute state equal that intended state. -/
theorem guard_window_volume_sync_amended (s0 : SessionState) (url : String)
    (resets : List ℚ) (ok : Bool)
    (hm : s0.video.muted = false) (hu : url ≠ "")
    (hr : ∀ r ∈ resets, r ≠ 1) :
    (∀ (st : SessionState) (b : Bool), st.isInitializing = true →
        onVolumechangeListener st b = st) ∧
    (readyScenario s0 url resets ok).video.volume = 1 ∧
    (readyScenario s0 url resets ok).video.muted = false ∧
    (readyScenario s0 url resets ok).isInitializing = false ∧
    (readyScenario s0 url resets ok).audioElement.map MediaElem.volume = some 1 ∧
    (readyScenario s0 url resets ok).audioElement.map MediaElem.muted = some false := by
  have hrs := readyScenario_unfold s0 url resets ok hu hm hr
  have hfr := createAudioElement_frame
    ({ s0 with isInitializing := true, video := { s0.video with volume := 0 } }) url
  have hls : ({ createAudioElement
      { s0 with isInitializing := true, video := { s0.video with volume := 0 } } url with
        video := { s0.video with volume := 1, muted := false }
        isInitializing := false } : SessionState).listenerSets = s0.listenerSets + 1 :=
    hfr.2.2.1
  have hd := dispatch_final
    ({ createAudioElement
        { s0 with isInitializing := true, video := { s0.video with volume := 0 } } url with
      video := { s0.video with volume := 1, muted := false }
      isInitializing := false }) ok rfl hfr.2.2.2 (by rw [hls]; omega)
  rw [hrs]
  refine ⟨fun st b h => vc_guard_id st b h, ?_, ?_, hd.2.1, hd.2.2.1, hd.2.2.2⟩
  · rw [hd.1]
  · rw [hd.1]

/-- Claim C2 as frozen is refuted: with a single internal volume-reset event that
happens to set the primary's volume to exactly the full-volume target during
the guard window, the window elapses with the primary force-applied to
volume 1 / unmuted, yet the secondary element keeps the volume 0 it was
created with — the force-apply changed nothing, so no further volume-change
notification ever reached the listener. -/
theorem guard_window_reset_to_target_cex :
    (readyScenario demoState "a.mp3" [1] false).video.volume = 1 ∧
    (readyScenario demoState "a.mp3" [1] false).video.muted = false ∧
    (readyScenario demoState "a.mp3" [1] false).isInitializing = false ∧
    (readyScenario demoState "a.mp3" [1] false).audioElement.map MediaElem.volume = some 0 ∧
    ¬ (readyScenario demoState "a.mp3" [1] false).audioElement.map MediaElem.volume
        = some 1 := by
  decide

/-- Witness for the amended C2 at concrete inputs: one in-window reset to
volume 0 is ignored and the secondary still ends at full volume, unmuted. -/
theorem guard_window_volume_sync_amended_witness :
    (demoState.video.muted = false ∧ "a.mp3" ≠ "" ∧ ∀ r ∈ ([0] : List ℚ), r ≠ 1) ∧
    ((∀ (st : SessionState) (b : Bool), st.isInitializing = true →
        onVolumechangeListener st b = st) ∧
     (readyScenario demoState "a.mp3" [0] false).video.volume = 1 ∧
     (readyScenario demoState "a.mp3" [0] false).video.muted = false ∧
     (readyScenario demoState "a.mp3" [0] false).isInitializing = false ∧
     (readyScenario demoState "a.mp3" [0] false).audioElement.map MediaElem.volume = some 1 ∧
     (readyScenario demoState "a.mp3" [0] false).audioElement.map MediaElem.muted = some false) :=
  ⟨⟨by decide, by decide, by decide⟩,
   guard_window_volume_sync_amended demoState "a.mp3" [0] false (by decide) (by decide)
     (by decide)⟩

end ArtPlayerSync
